import Mathlib

/-
Verification of fks_portfolio core components against its specification.

Shallow embedding conventions:
* Python floats are modelled by exact rationals (ℚ); tolerance clauses of the
  spec hold a fortiori when exact equality is proved.
* Fallible Python functions (returning None or raising) are modelled with
  Option / Except.
* External data sources (DataManager.fetch_price, the BTC price cache) are
  modelled as an explicit environment of resolved prices.
-/

namespace FksPortfolio

/-! ### BTC converter (src/src/data/btc_converter.py)

`PriceEnv` models the prices the converter can resolve during one call window:
`fetch s` is `data_manager.fetch_price(s, ts)` and `btcPrice` is the result of
`get_btc_price(ts)` (cache plus preferred adapters).  The claims quantify over
environments where both calls resolve to the same values. -/

structure PriceEnv where
  fetch : String → Option ℚ
  btcPrice : Option ℚ

/-- Python's `str.upper()` on the symbol strings used here (ASCII): uppercase
every character.  Executable counterpart of `String.toUpper`, which maps
`Char.toUpper` over the characters exactly like this. -/
def pyUpper (s : String) : String :=
  String.mk (s.data.map Char.toUpper)

/-- `BTCConverter.to_btc` (btc_converter.py lines 71-107): symbols whose
uppercase form is BTC pass through; otherwise the asset USD price and the BTC
USD price are fetched in that order, and the result is amount·asset/btc. -/
def to_btc (env : PriceEnv) (amount : ℚ) (assetSymbol : String) : Option ℚ :=
  if pyUpper assetSymbol = "BTC" then some amount
  else
    match env.fetch assetSymbol with
    | none => none
    | some assetPrice =>
      match env.btcPrice with
      | none => none
      | some btcPrice => some (amount * assetPrice / btcPrice)

/-- `BTCConverter.from_btc` (btc_converter.py lines 109-145): BTC passes
through; otherwise the BTC USD price and the target USD price are fetched in
that order, and the result is amount·btc/target. -/
def from_btc (env : PriceEnv) (btcAmount : ℚ) (targetSymbol : String) : Option ℚ :=
  if pyUpper targetSymbol = "BTC" then some btcAmount
  else
    match env.btcPrice with
    | none => none
    | some btcPrice =>
      match env.fetch targetSymbol with
      | none => none
      | some targetPrice => some (btcAmount * btcPrice / targetPrice)

/-- C1: for every amount x and symbol S with uppercase form BTC, `to_btc`
returns x directly; for every other symbol, when both the asset USD price and
the BTC USD price resolve, it returns x·assetPrice/btcPrice, and when either
price is missing it returns None. -/
theorem to_btc_cases (env : PriceEnv) (x : ℚ) (S : String) :
    (pyUpper S = "BTC" → to_btc env x S = some x) ∧
    (pyUpper S ≠ "BTC" →
      ∀ p b : ℚ, env.fetch S = some p → env.btcPrice = some b →
        to_btc env x S = some (x * p / b)) ∧
    (pyUpper S ≠ "BTC" → (env.fetch S = none ∨ env.btcPrice = none) →
      to_btc env x S = none) := by
  refine ⟨fun h => by simp [to_btc, h], fun h p b hp hb => ?_, fun h hmiss => ?_⟩
  · simp [to_btc, h, hp, hb]
  · rcases hmiss with hm | hm
    · simp [to_btc, h, hm]
    · cases hfetch : env.fetch S with
      | none => simp [to_btc, h, hfetch]
      | some p => simp [to_btc, h, hfetch, hm]

def envEth : PriceEnv :=
  { fetch := fun s => if s = "ETH" then some 3000 else none
    btcPrice := some 60000 }

/-- C1 witness: concrete evaluations of `to_btc` obtained through
`to_btc_cases`: BTC passthrough, a resolving conversion, and a missing price. -/
theorem to_btc_cases_witness :
    to_btc envEth 7 "BTC" = some 7 ∧
    to_btc envEth 10 "ETH" = some (1/2) ∧
    to_btc envEth 10 "XYZ" = none := by
  refine ⟨(to_btc_cases envEth 7 "BTC").1 (by decide), ?_, ?_⟩
  · have h := (to_btc_cases envEth 10 "ETH").2.1 (by decide) 3000 60000 rfl rfl
    rw [h]
    norm_num
  · exact (to_btc_cases envEth 10 "XYZ").2.2 (by decide) (Or.inl rfl)

def envZeroPrice : PriceEnv :=
  { fetch := fun s => if s = "XYZ" then some 0 else none
    btcPrice := some 1 }

/-- C2 counterexample: with both prices resolving (asset price 0, BTC price 1)
the round trip `from_btc (to_btc 1 "XYZ") "XYZ"` yields 0, not 1, so the
round-trip identity fails as stated.  (In the Python source this input divides
zero by zero inside `from_btc`; either way the result is not the input.) -/
theorem btc_round_trip_fails_at_zero_price :
    (to_btc envZeroPrice 1 "XYZ").bind (fun y => from_btc envZeroPrice y "XYZ") ≠
      some 1 := by
  have h : pyUpper "XYZ" ≠ "BTC" := by decide
  simp [to_btc, from_btc, h, envZeroPrice]

/-- C2 amended: whenever both prices resolve to nonzero values across both
calls, `from_btc (to_btc x S) S = x` exactly (hence within any tolerance ε). -/
theorem btc_round_trip (env : PriceEnv) (x : ℚ) (S : String) (p b : ℚ)
    (hp : env.fetch S = some p) (hb : env.btcPrice = some b)
    (hp0 : p ≠ 0) (hb0 : b ≠ 0) :
    (to_btc env x S).bind (fun y => from_btc env y S) = some x := by
  by_cases hS : pyUpper S = "BTC"
  · simp [to_btc, from_btc, hS]
  · simp only [to_btc, from_btc, if_neg hS, hp, hb, Option.some_bind,
      Option.some.injEq]
    field_simp

/-- C2 witness: the amended round trip evaluated at ETH prices 3000/60000 and
x = 2. -/
theorem btc_round_trip_witness :
    (to_btc envEth 2 "ETH").bind (fun y => from_btc envEth y "ETH") = some 2 :=
  btc_round_trip envEth 2 "ETH" 3000 60000 rfl rfl (by norm_num) (by norm_num)

/-! ### Signal engine (src/src/signals/signal_engine.py, trade_categories.py,
trading_signal.py)

The data-dependent indicator computation feeds `generate_signal` through the
indicator bag; the bag fields actually read by the decision path (rsi, macd,
trend, volatility) are inputs of the embedding, quantified over.  Times
(timestamp/expiry) are rationals counting seconds. -/

inductive TradeCategory
  | scalp
  | intraday
  | swing
  | long_term
deriving DecidableEq, Repr

inductive SignalType
  | buy
  | sell
  | hold
  | close
deriving DecidableEq, Repr

inductive SignalStrength
  | weak
  | moderate
  | strong
  | very_strong
deriving DecidableEq, Repr

/-- `TradeCategoryClassifier.CATEGORIES[c].take_profit_pct` (trade_categories.py). -/
def takeProfitRange : TradeCategory → ℚ × ℚ
  | .scalp => (1/10, 1/2)
  | .intraday => (1/2, 2)
  | .swing => (2, 10)
  | .long_term => (10, 50)

/-- `TradeCategoryClassifier.CATEGORIES[c].stop_loss_pct` (trade_categories.py). -/
def stopLossRange : TradeCategory → ℚ × ℚ
  | .scalp => (1/20, 1/5)
  | .intraday => (1/5, 1)
  | .swing => (1, 5)
  | .long_term => (5, 15)

/-- `TradeCategoryClassifier.CATEGORIES[c].time_horizon_max` in seconds. -/
def horizonMaxSeconds : TradeCategory → ℚ
  | .scalp => 900
  | .intraday => 86400
  | .swing => 2419200
  | .long_term => 31536000

/-- Python truthiness of an optional float: `None` and `0.0` are falsy. -/
def pyTruthy : Option ℚ → Bool
  | none => false
  | some v => decide (v ≠ 0)

/-- `SignalEngine._determine_signal_type` (signal_engine.py lines 212-243). -/
def determine_signal_type (rsi macd : Option ℚ) (trend : String) : SignalType :=
  if pyTruthy rsi ∧ rsi.getD 0 < 30 then SignalType.buy
  else if pyTruthy rsi ∧ 70 < rsi.getD 0 then SignalType.sell
  else if pyTruthy macd ∧ 0 < macd.getD 0 ∧ trend = "up" then SignalType.buy
  else if pyTruthy macd ∧ macd.getD 0 < 0 ∧ trend = "down" then SignalType.sell
  else if trend = "up" then SignalType.buy
  else if trend = "down" then SignalType.sell
  else SignalType.hold

/-- Core of `SignalEngine._calculate_tp_sl` generic in the category ranges:
with a truthy volatility the ranges are scaled by min(vol/0.3, 2)·0.5, else
their midpoints are used. -/
def scaled_tp_sl (tpMin tpMax slMin slMax : ℚ) (volatility : Option ℚ) : ℚ × ℚ :=
  match volatility with
  | some v =>
    if v = 0 then ((tpMin + tpMax) / 2, (slMin + slMax) / 2)
    else
      (tpMin + (tpMax - tpMin) * min (v / (3/10)) 2 * (1/2),
       slMin + (slMax - slMin) * min (v / (3/10)) 2 * (1/2))
  | none => ((tpMin + tpMax) / 2, (slMin + slMax) / 2)

/-- `SignalEngine._calculate_tp_sl` (signal_engine.py lines 245-267). -/
def calc_tp_sl (category : TradeCategory) (volatility : Option ℚ) : ℚ × ℚ :=
  scaled_tp_sl (takeProfitRange category).1 (takeProfitRange category).2
    (stopLossRange category).1 (stopLossRange category).2 volatility

/-- `SignalEngine._determine_strength` (signal_engine.py lines 269-298). -/
def determine_strength (rsi macd : Option ℚ) (trend : String) (riskReward : ℚ) :
    SignalStrength :=
  let c1 : ℕ := if pyTruthy rsi ∧ (rsi.getD 0 < 30 ∨ 70 < rsi.getD 0) then 1 else 0
  let c2 : ℕ := if pyTruthy macd ∧ 0 < |macd.getD 0| then 1 else 0
  let c3 : ℕ := if trend ≠ "neutral" then 1 else 0
  let c4 : ℕ := if 2 ≤ riskReward then 1 else 0
  let confirmations := c1 + c2 + c3 + c4
  if 3 ≤ confirmations then SignalStrength.very_strong
  else if 2 ≤ confirmations then SignalStrength.strong
  else if 1 ≤ confirmations then SignalStrength.moderate
  else SignalStrength.weak

/-- `SignalEngine._calculate_confidence` (signal_engine.py lines 300-327). -/
def calculate_confidence (rsi : Option ℚ) (trend : String) (riskReward : ℚ) : ℚ :=
  let c1 : ℚ := 1/2
  let c2 := c1 + (if pyTruthy rsi then
    (if rsi.getD 0 < 20 ∨ 80 < rsi.getD 0 then 1/5
     else if rsi.getD 0 < 30 ∨ 70 < rsi.getD 0 then 1/10 else 0) else 0)
  let c3 := c2 + (if 3 ≤ riskReward then 1/5 else if 2 ≤ riskReward then 1/10 else 0)
  let c4 := c3 + (if trend ≠ "neutral" then 1/10 else 0)
  min c4 1

/-- `TradingSignal` (trading_signal.py); times in seconds as rationals. -/
structure TradingSignal where
  symbol : String
  signalType : SignalType
  category : TradeCategory
  entryPrice : ℚ
  takeProfit : ℚ
  stopLoss : ℚ
  takeProfitPct : ℚ
  stopLossPct : ℚ
  riskReward : ℚ
  positionSizePct : ℚ
  timestamp : ℚ
  expiry : Option ℚ
  strength : SignalStrength
  confidence : ℚ
deriving DecidableEq, Repr

/-- Inputs visible to one `generate_signal` call after data fetching:
length of the fetched history, current price (None when the fetch fails), the
indicator-bag fields read by the decision path, and the current time. -/
structure SignalInputs where
  symbol : String
  histLen : ℕ
  currentPrice : Option ℚ
  rsi : Option ℚ
  macd : Option ℚ
  trend : String
  volatility : Option ℚ
  now : ℚ

/-- The signal record built by `SignalEngine.generate_signal` lines 82-126 once
the signal type is fixed: TP/SL prices from the category percentages,
risk/reward tp_pct/sl_pct (0 when sl_pct ≤ 0), position size
min(max_position_size_pct, sl_pct/100), expiry now + category max horizon. -/
def build_signal (category : TradeCategory) (maxPositionSizePct : ℚ)
    (inp : SignalInputs) (entryPrice : ℚ) (st : SignalType) : TradingSignal :=
  let tpsl := calc_tp_sl category inp.volatility
  let tpPct := tpsl.1
  let slPct := tpsl.2
  let rr := if 0 < slPct then tpPct / slPct else 0
  { symbol := inp.symbol
    signalType := st
    category := category
    entryPrice := entryPrice
    takeProfit := if st = SignalType.buy then entryPrice * (1 + tpPct / 100)
      else entryPrice * (1 - tpPct / 100)
    stopLoss := if st = SignalType.buy then entryPrice * (1 - slPct / 100)
      else entryPrice * (1 + slPct / 100)
    takeProfitPct := tpPct
    stopLossPct := slPct
    riskReward := rr
    positionSizePct := min maxPositionSizePct (slPct / 100)
    timestamp := inp.now
    expiry := some (inp.now + horizonMaxSeconds category)
    strength := determine_strength inp.rsi inp.macd inp.trend rr
    confidence := calculate_confidence inp.rsi inp.trend rr }

/-- `SignalEngine.generate_signal` (signal_engine.py lines 38-131): None on
insufficient history (< 20 rows), missing current price, a HOLD decision, or a
risk/reward below the engine minimum; otherwise the built signal. -/
def generate_signal (category : TradeCategory)
    (minRiskReward maxPositionSizePct : ℚ) (inp : SignalInputs) :
    Option TradingSignal :=
  if inp.histLen < 20 then none
  else
    match inp.currentPrice with
    | none => none
    | some entryPrice =>
      if determine_signal_type inp.rsi inp.macd inp.trend = SignalType.hold then
        none
      else
        if (build_signal category maxPositionSizePct inp entryPrice
              (determine_signal_type inp.rsi inp.macd inp.trend)).riskReward <
            minRiskReward then
          none
        else
          some (build_signal category maxPositionSizePct inp entryPrice
            (determine_signal_type inp.rsi inp.macd inp.trend))

/-- `TradingSignal.is_valid` (trading_signal.py lines 82-96): not expired,
risk/reward at least 1, position size within [0.01, 0.02]. -/
def is_valid (now : ℚ) (s : TradingSignal) : Bool :=
  if (match s.expiry with | some e => decide (e < now) | none => false) then false
  else if s.riskReward < 1 then false
  else if 1/100 ≤ s.positionSizePct ∧ s.positionSizePct ≤ 1/50 then true
  else false

/-- Every emitted signal is the built record for the decided non-HOLD type at
the fetched current price. -/
theorem generate_signal_eq (category : TradeCategory)
    (minRiskReward maxPositionSizePct : ℚ) (inp : SignalInputs)
    (sig : TradingSignal)
    (h : generate_signal category minRiskReward maxPositionSizePct inp = some sig) :
    ∃ entryPrice, inp.currentPrice = some entryPrice ∧
      sig = build_signal category maxPositionSizePct inp entryPrice
        (determine_signal_type inp.rsi inp.macd inp.trend) := by
  unfold generate_signal at h
  split at h
  · exact absurd h (by simp)
  · cases hcp : inp.currentPrice with
    | none => rw [hcp] at h; exact absurd h (by simp)
    | some e =>
      rw [hcp] at h
      simp only at h
      split at h
      · exact absurd h (by simp)
      · split at h
        · exact absurd h (by simp)
        · exact ⟨e, rfl, (Option.some_inj.mp h).symm⟩

/-- The computed TP and SL percentages are positive for every category,
provided the volatility input (an annualized standard deviation in the
source, hence nonnegative) is nonnegative. -/
theorem calc_tp_sl_pos (category : TradeCategory) (vol : Option ℚ)
    (hv : ∀ v, vol = some v → 0 ≤ v) :
    0 < (calc_tp_sl category vol).1 ∧ 0 < (calc_tp_sl category vol).2 := by
  have key : ∀ tpMin tpMax slMin slMax : ℚ, 0 < tpMin → tpMin ≤ tpMax →
      0 < slMin → slMin ≤ slMax →
      0 < (scaled_tp_sl tpMin tpMax slMin slMax vol).1 ∧
      0 < (scaled_tp_sl tpMin tpMax slMin slMax vol).2 := by
    intro tpMin tpMax slMin slMax h1 h2 h3 h4
    cases vol with
    | none => constructor <;> (simp [scaled_tp_sl]; linarith)
    | some v =>
      have hv0 : 0 ≤ v := hv v rfl
      by_cases hz : v = 0
      · constructor <;> (simp [scaled_tp_sl, hz]; linarith)
      · have hvpos : 0 < v := lt_of_le_of_ne hv0 (Ne.symm hz)
        have hfac : 0 ≤ min (v / (3/10)) 2 := le_min (by positivity) (by norm_num)
        constructor <;>
          (simp only [scaled_tp_sl, if_neg hz]
           nlinarith [mul_nonneg (mul_nonneg (sub_nonneg.mpr h2) hfac)
             (by norm_num : (0:ℚ) ≤ 1/2),
             mul_nonneg (mul_nonneg (sub_nonneg.mpr h4) hfac)
             (by norm_num : (0:ℚ) ≤ 1/2)])
  cases category <;>
    exact key _ _ _ _ (by norm_num [takeProfitRange]) (by norm_num [takeProfitRange])
      (by norm_num [stopLossRange]) (by norm_num [stopLossRange])

/-- C3: every BUY signal emitted by `generate_signal` with a positive entry
price (and the source-invariant nonnegative volatility) has
take_profit > entry > stop_loss, and its risk/reward equals tp_pct/sl_pct
within 1e-6 (in fact exactly). -/
theorem buy_signal_invariants (category : TradeCategory)
    (minRiskReward maxPositionSizePct : ℚ) (inp : SignalInputs)
    (sig : TradingSignal)
    (h : generate_signal category minRiskReward maxPositionSizePct inp = some sig)
    (hbuy : sig.signalType = SignalType.buy)
    (hentry : 0 < sig.entryPrice)
    (hvol : ∀ v, inp.volatility = some v → 0 ≤ v) :
    sig.entryPrice < sig.takeProfit ∧ sig.stopLoss < sig.entryPrice ∧
    |sig.riskReward - sig.takeProfitPct / sig.stopLossPct| ≤ 1/1000000 := by
  obtain ⟨e, hcp, hsig⟩ := generate_signal_eq _ _ _ _ _ h
  obtain ⟨htp, hsl⟩ := calc_tp_sl_pos category inp.volatility hvol
  set st := determine_signal_type inp.rsi inp.macd inp.trend with hst
  have hstbuy : st = SignalType.buy := by
    rw [hsig] at hbuy
    simpa [build_signal] using hbuy
  have he : sig.entryPrice = e := by rw [hsig]; simp [build_signal]
  subst hsig
  rw [he] at hentry
  refine ⟨?_, ?_, ?_⟩
  · simp only [build_signal, hstbuy]
    simp only [if_pos rfl, reduceIte]
    nlinarith [mul_pos hentry htp]
  · simp only [build_signal, hstbuy]
    simp only [if_pos rfl, reduceIte]
    nlinarith [mul_pos hentry hsl]
  · simp only [build_signal, if_pos hsl]
    simp

def swingInput : SignalInputs :=
  { symbol := "ETH", histLen := 30, currentPrice := some 100, rsi := some 25,
    macd := none, trend := "up", volatility := none, now := 0 }

def swingSig : TradingSignal :=
  build_signal TradeCategory.swing (1/50) swingInput 100 SignalType.buy

theorem generate_swing_eval :
    generate_signal TradeCategory.swing (3/2) (1/50) swingInput = some swingSig := by
  norm_num [generate_signal, swingSig, swingInput, build_signal,
    determine_signal_type, pyTruthy, calc_tp_sl, scaled_tp_sl,
    takeProfitRange, stopLossRange]
  intro h
  exact absurd h (by decide)

/-- C3 witness: the concrete swing BUY signal (RSI 25, uptrend, no
volatility) satisfies the C3 invariants via `buy_signal_invariants`. -/
theorem buy_signal_invariants_witness :
    swingSig.entryPrice < swingSig.takeProfit ∧
    swingSig.stopLoss < swingSig.entryPrice ∧
    |swingSig.riskReward - swingSig.takeProfitPct / swingSig.stopLossPct| ≤
      1/1000000 := by
  refine buy_signal_invariants TradeCategory.swing (3/2) (1/50) swingInput swingSig
    generate_swing_eval ?_ ?_ ?_
  · rfl
  · norm_num [swingSig, build_signal]
  · intro v hv
    simp [swingInput] at hv

def scalpInput : SignalInputs :=
  { symbol := "BTC", histLen := 30, currentPrice := some 100, rsi := some 25,
    macd := none, trend := "up", volatility := none, now := 0 }

/-- C4: `generate_signal` on the SCALP category (RSI 25 → BUY, default
midpoint TP/SL 0.3%/0.125%) emits a signal whose position_size_pct is
min(0.02, 0.00125) = 0.00125, violating the documented lower bound 0.01,
and which its own `is_valid` therefore rejects. -/
theorem scalp_position_size_below_documented_bound :
    (generate_signal TradeCategory.scalp (3/2) (1/50) scalpInput).map
        (fun s => s.positionSizePct) = some (1/800) ∧
    ¬ ((1/100 : ℚ) ≤ 1/800) ∧
    (generate_signal TradeCategory.scalp (3/2) (1/50) scalpInput).map
        (fun s => is_valid 0 s) = some false := by
  refine ⟨?_, by norm_num, ?_⟩ <;>
    norm_num [generate_signal, scalpInput, build_signal, determine_signal_type,
      pyTruthy, calc_tp_sl, scaled_tp_sl, takeProfitRange, stopLossRange,
      is_valid, horizonMaxSeconds]
  · exact ⟨_, ⟨by decide, rfl⟩, rfl⟩
  · refine ⟨_, ⟨by decide, rfl⟩, ?_⟩
    intro _ _ hle
    exact absurd hle (by norm_num)

/-! ### Allocation tracker (src/src/portfolio/allocation_tracker.py)

Holdings are the entries of the `{symbol: {asset_class, value}}` dict in
iteration order. -/

structure Holding where
  symbol : String
  assetClass : String
  value : ℚ
deriving DecidableEq, Repr

/-- `AllocationTracker.TARGET_ALLOCATIONS` (allocation_tracker.py lines 57-64). -/
def TARGET_ALLOCATIONS : List (String × ℚ) :=
  [("stocks", 50), ("etfs", 15), ("commodities", 15), ("crypto", 10),
   ("futures", 5), ("cash", 5)]

def targetClasses : List String := TARGET_ALLOCATIONS.map Prod.fst

/-- `asset_targets` inside `_get_target_for_asset` (lines 181-185). -/
def asset_targets : List (String × ℚ) := [("AAPL", 10), ("COST", 8), ("HD", 7)]

/-- `AllocationTracker._get_target_for_asset` (lines 169-191). -/
def get_target_for_asset (symbol : String) : ℚ :=
  match asset_targets.lookup symbol with
  | some t => t
  | none => 0

/-- The `asset_class_totals[ac] += value` accumulation of
`calculate_allocation`: total of the values of holdings carrying class `c`
(only classes present in the totals dict are ever accumulated). -/
def classTotal (holdings : List Holding) (c : String) : ℚ :=
  ((holdings.filter (fun h => h.assetClass = c)).map Holding.value).sum

structure AssetAllocation where
  symbol : String
  assetClass : String
  currentPercent : ℚ
  targetPercent : ℚ
  currentValue : ℚ
  targetValue : ℚ
  difference : ℚ
  differencePercent : ℚ
deriving DecidableEq, Repr

structure ClassAllocation where
  assetClass : String
  currentPercent : ℚ
  targetPercent : ℚ
  currentValue : ℚ
  targetValue : ℚ
  difference : ℚ
  differencePercent : ℚ
  assets : List AssetAllocation
deriving DecidableEq, Repr

structure AllocationReport where
  portfolioValue : ℚ
  assetClasses : List ClassAllocation
  totalDrift : ℚ
  needsRebalancing : Bool
  threshold : ℚ
deriving DecidableEq, Repr

/-- Per-asset rows built by `calculate_allocation` lines 105-125. -/
def asset_rows (holdings : List Holding) (portfolioValue : ℚ) :
    List AssetAllocation :=
  holdings.map (fun h =>
    let currentPercent := if 0 < portfolioValue then h.value / portfolioValue * 100 else 0
    let targetPercent := get_target_for_asset h.symbol
    { symbol := h.symbol
      assetClass := h.assetClass
      currentPercent := currentPercent
      targetPercent := targetPercent
      currentValue := h.value
      targetValue := portfolioValue * targetPercent / 100
      difference := h.value - portfolioValue * targetPercent / 100
      differencePercent := currentPercent - targetPercent })

/-- `AllocationTracker.calculate_allocation` (lines 85-167). -/
def calculate_allocation (threshold : ℚ) (holdings : List Holding)
    (portfolioValue : ℚ) : AllocationReport :=
  let rows := asset_rows holdings portfolioValue
  let classes := TARGET_ALLOCATIONS.map (fun ct =>
    let currentValue := classTotal holdings ct.1
    let currentPercent := if 0 < portfolioValue then currentValue / portfolioValue * 100 else 0
    let targetValue := portfolioValue * ct.2 / 100
    { assetClass := ct.1
      currentPercent := currentPercent
      targetPercent := ct.2
      currentValue := currentValue
      targetValue := targetValue
      difference := currentValue - targetValue
      differencePercent := currentPercent - ct.2
      assets := rows.filter (fun a => a.assetClass = ct.1) })
  { portfolioValue := portfolioValue
    assetClasses := classes
    totalDrift := (classes.map (fun ac => |ac.differencePercent|)).sum
    needsRebalancing := classes.any (fun ac => decide (threshold < |ac.differencePercent|))
    threshold := threshold }

theorem allocation_currentValues (threshold : ℚ) (holdings : List Holding)
    (V : ℚ) :
    (calculate_allocation threshold holdings V).assetClasses.map
        ClassAllocation.currentValue =
      targetClasses.map (classTotal holdings) := by
  simp only [calculate_allocation, targetClasses, List.map_map]
  rfl

/-- C7 counterexample: a holding of value 100 in class `bonds` — a class
outside the six tracked target classes — is silently dropped from every class
total, so with portfolio value 100 the class current_values sum to 0, not
100. -/
theorem allocation_sum_fails_for_untracked_class :
    (((calculate_allocation 5 [{ symbol := "X", assetClass := "bonds", value := 100 }]
        100).assetClasses.map ClassAllocation.currentValue).sum = 0) ∧
    ((0 : ℚ) ≠ 100) := by
  refine ⟨?_, by norm_num⟩
  rw [allocation_currentValues]
  apply List.sum_eq_zero
  intro y hy
  obtain ⟨c, hc, rfl⟩ := List.mem_map.mp hy
  have hne : ("bonds" : String) ≠ c := by
    fin_cases hc <;> decide
  simp [classTotal, List.filter, hne]

theorem sum_ite_single {v : ℚ} (L : List String) (a : String)
    (hnd : L.Nodup) (ha : a ∈ L) :
    (L.map (fun c => if a = c then v else 0)).sum = v := by
  induction L with
  | nil => cases ha
  | cons x xs ih =>
    rcases List.mem_cons.mp ha with h | h
    · subst h
      have hnx : a ∉ xs := (List.nodup_cons.mp hnd).1
      have hz : (xs.map (fun c => if a = c then v else 0)).sum = 0 := by
        apply List.sum_eq_zero
        intro y hy
        obtain ⟨c, hc, rfl⟩ := List.mem_map.mp hy
        simp only [ite_eq_right_iff]
        intro hac
        exact absurd (hac ▸ hc) hnx
      simp [hz]
    · have hax : ¬ a = x := fun hax => (List.nodup_cons.mp hnd).1 (hax ▸ h)
      simp [hax, ih (List.nodup_cons.mp hnd).2 h]

theorem sum_classTotal (holdings : List Holding)
    (hall : ∀ h ∈ holdings, h.assetClass ∈ targetClasses) :
    (targetClasses.map (classTotal holdings)).sum =
      (holdings.map Holding.value).sum := by
  induction holdings with
  | nil =>
    rw [List.map_congr_left (fun c _ => by simp [classTotal] :
      ∀ c ∈ targetClasses, classTotal [] c = (fun _ => (0:ℚ)) c)]
    simp
  | cons h hs ih =>
    have hsplit : ∀ c ∈ targetClasses, classTotal (h :: hs) c =
        (fun c => (if h.assetClass = c then h.value else 0) + classTotal hs c) c := by
      intro c _
      by_cases hc : h.assetClass = c <;> simp [classTotal, hc]
    rw [List.map_congr_left hsplit, List.sum_map_add,
      sum_ite_single targetClasses h.assetClass (by decide)
        (hall h (List.mem_cons_self h hs)),
      ih (fun g hg => hall g (List.mem_cons_of_mem h hg))]
    simp

/-- C7 amended: for every holdings map whose classes all lie in the six
tracked target classes and every portfolio value V equal to the sum of the
holdings' values, the class current_values of the AllocationReport sum to V
exactly (hence within any ε). -/
theorem allocation_class_values_sum (threshold : ℚ) (holdings : List Holding)
    (V : ℚ)
    (hall : ∀ h ∈ holdings, h.assetClass ∈ targetClasses)
    (hV : (holdings.map Holding.value).sum = V) :
    (((calculate_allocation threshold holdings V).assetClasses.map
        ClassAllocation.currentValue).sum = V) := by
  rw [allocation_currentValues, sum_classTotal holdings hall, hV]

/-- C7 witness: two holdings (stocks 60, crypto 40) with V = 100 give class
current_values summing to 100. -/
theorem allocation_class_values_sum_witness :
    (((calculate_allocation 5
        [{ symbol := "AAPL", assetClass := "stocks", value := 60 },
         { symbol := "BTC", assetClass := "crypto", value := 40 }]
        100).assetClasses.map ClassAllocation.currentValue).sum = 100) := by
  apply allocation_class_values_sum
  · intro h hh
    simp only [List.mem_cons, List.not_mem_nil, or_false] at hh
    rcases hh with rfl | rfl <;> decide
  · norm_num

/-! ### Bias detector (src/src/risk/bias_detection.py) -/

structure BiasFlag where
  biasType : String
  severity : String
  message : String
  recommendation : String
deriving DecidableEq, Repr

/-- `BiasDetector.get_bias_recommendation` (bias_detection.py lines 158-181). -/
def get_bias_recommendation (biases : List BiasFlag) : String :=
  if biases = [] then "OK"
  else if biases.any (fun b => decide (b.severity = "high")) then "AVOID_TRADING"
  else if biases.any (fun b => decide (b.severity = "medium")) then
    "REDUCE_POSITION_SIZE"
  else "CAUTION"

def lowFlag : BiasFlag :=
  { biasType := "recent_loss_aversion", severity := "low",
    message := "", recommendation := "" }

/-- C9 counterexample: a single low-severity flag (no high, no medium) yields
`CAUTION`, not the claimed `OK`. -/
theorem bias_recommendation_not_ok_on_low :
    get_bias_recommendation [lowFlag] = "CAUTION" ∧ "CAUTION" ≠ "OK" := by
  constructor
  · rfl
  · decide

/-- C9 amended: any high flag yields AVOID_TRADING; otherwise any medium flag
yields REDUCE_POSITION_SIZE; otherwise the empty list yields OK while a
non-empty list with neither high nor medium severities yields CAUTION. -/
theorem bias_recommendation_cases (biases : List BiasFlag) :
    ((∃ b ∈ biases, b.severity = "high") →
      get_bias_recommendation biases = "AVOID_TRADING") ∧
    ((¬ ∃ b ∈ biases, b.severity = "high") → (∃ b ∈ biases, b.severity = "medium") →
      get_bias_recommendation biases = "REDUCE_POSITION_SIZE") ∧
    (biases = [] → get_bias_recommendation biases = "OK") ∧
    (biases ≠ [] → (¬ ∃ b ∈ biases, b.severity = "high") →
      (¬ ∃ b ∈ biases, b.severity = "medium") →
      get_bias_recommendation biases = "CAUTION") := by
  refine ⟨fun hh => ?_, fun hnh hm => ?_, fun he => by simp [get_bias_recommendation, he],
    fun hne hnh hnm => ?_⟩
  · obtain ⟨b, hb, hsev⟩ := hh
    have hne : biases ≠ [] := by rintro rfl; cases hb
    have hany : biases.any (fun b => decide (b.severity = "high")) = true := by
      simp only [List.any_eq_true]
      exact ⟨b, hb, by simp [hsev]⟩
    simp [get_bias_recommendation, hne, hany]
  · obtain ⟨b, hb, hsev⟩ := hm
    have hne : biases ≠ [] := by rintro rfl; cases hb
    have hanyh : biases.any (fun b => decide (b.severity = "high")) = false := by
      simp only [List.any_eq_false, decide_eq_true_eq]
      exact fun b hb hs => hnh ⟨b, hb, hs⟩
    have hanym : biases.any (fun b => decide (b.severity = "medium")) = true := by
      simp only [List.any_eq_true]
      exact ⟨b, hb, by simp [hsev]⟩
    simp [get_bias_recommendation, hne, hanyh, hanym]
  · have hanyh : biases.any (fun b => decide (b.severity = "high")) = false := by
      simp only [List.any_eq_false, decide_eq_true_eq]
      exact fun b hb hs => hnh ⟨b, hb, hs⟩
    have hanym : biases.any (fun b => decide (b.severity = "medium")) = false := by
      simp only [List.any_eq_false, decide_eq_true_eq]
      exact fun b hb hs => hnm ⟨b, hb, hs⟩
    simp [get_bias_recommendation, hne, hanyh, hanym]

def highFlag : BiasFlag :=
  { biasType := "anchoring", severity := "high",
    message := "", recommendation := "" }

/-- C9 witness: the amended case analysis evaluated on concrete flag lists. -/
theorem bias_recommendation_cases_witness :
    get_bias_recommendation [highFlag, lowFlag] = "AVOID_TRADING" ∧
    get_bias_recommendation [] = "OK" ∧
    get_bias_recommendation [lowFlag] = "CAUTION" := by
  refine ⟨(bias_recommendation_cases [highFlag, lowFlag]).1
      ⟨highFlag, by decide, by decide⟩,
    (bias_recommendation_cases []).2.2.1 rfl,
    (bias_recommendation_cases [lowFlag]).2.2.2 (by decide) ?_ ?_⟩
  · rintro ⟨b, hb, hs⟩
    simp only [List.mem_singleton] at hb
    subst hb
    exact absurd hs (by decide)
  · rintro ⟨b, hb, hs⟩
    simp only [List.mem_singleton] at hb
    subst hb
    exact absurd hs (by decide)

/-! ### Risk engine: CVaR and Sharpe (src/src/risk/cvar.py) -/

/-- Insert into an ascending list (helper for the sort `np.percentile`
performs on its input). -/
def insertSorted (x : ℚ) : List ℚ → List ℚ
  | [] => [x]
  | y :: ys => if x ≤ y then x :: y :: ys else y :: insertSorted x ys

def sortAsc : List ℚ → List ℚ
  | [] => []
  | x :: xs => insertSorted x (sortAsc xs)

/-- `np.percentile(xs, q)` with the default linear interpolation: on the
ascending sort, position q/100·(n−1) interpolates between the neighbouring
order statistics. -/
def percentileLinear (xs : List ℚ) (q : ℚ) : ℚ :=
  let ys := sortAsc xs
  let n := ys.length
  if n = 0 then 0
  else
    let pos : ℚ := q / 100 * ((n : ℚ) - 1)
    let i : ℕ := (Int.floor pos).toNat
    let lo := ys.getD i 0
    let hi := ys.getD (i + 1) lo
    lo + (pos - (i : ℚ)) * (hi - lo)

/-- `CVaRCalculator.calculate_historical_cvar` (cvar.py lines 29-59) for a
calculator built with `confidence_level` c (tail α = 1−c): raises on an empty
series (None here); VaR is the α·100 percentile; CVaR is the mean of the
returns at or below VaR, falling back to VaR itself when that tail is
empty. -/
def calculate_historical_cvar (confidenceLevel : ℚ) (returns : List ℚ) :
    Option ℚ :=
  if returns = [] then none
  else
    let var := percentileLinear returns ((1 - confidenceLevel) * 100)
    let tail := returns.filter (fun r => r ≤ var)
    if tail = [] then some var
    else some (tail.sum / (tail.length : ℚ))

/-- C6: for every non-empty returns series, historical CVaR is the mean of
the returns at or below the α-quantile VaR, and is the VaR itself when no
return lies at or below that quantile. -/
theorem historical_cvar_spec (c : ℚ) (returns : List ℚ) (hne : returns ≠ []) :
    (returns.filter (fun r => r ≤ percentileLinear returns ((1 - c) * 100)) ≠ [] →
      calculate_historical_cvar c returns =
        some ((returns.filter
            (fun r => r ≤ percentileLinear returns ((1 - c) * 100))).sum /
          ((returns.filter
            (fun r => r ≤ percentileLinear returns ((1 - c) * 100))).length : ℚ))) ∧
    (returns.filter (fun r => r ≤ percentileLinear returns ((1 - c) * 100)) = [] →
      calculate_historical_cvar c returns =
        some (percentileLinear returns ((1 - c) * 100))) := by
  constructor
  · intro htail
    simp [calculate_historical_cvar, hne, htail]
  · intro htail
    simp [calculate_historical_cvar, hne, htail]

/-- C6 witness: confidence 95% on the series [−0.05, 0.01, 0.02, −0.01, 0.03]:
VaR = −0.042 (5th percentile, interpolated), tail = [−0.05], CVaR = −0.05. -/
theorem historical_cvar_spec_witness :
    calculate_historical_cvar (19/20) [-(1/20), 1/100, 1/50, -(1/100), 3/100] =
      some (-(1/20)) := by
  have h := (historical_cvar_spec (19/20)
    [-(1/20), 1/100, 1/50, -(1/100), 3/100] (by simp)).1
  norm_num [percentileLinear, sortAsc, insertSorted, List.filter] at h
  exact h

/-- Mean of a series (`Series.mean()`). -/
def listMean (xs : List ℚ) : ℚ := xs.sum / (xs.length : ℚ)

/-- Sample variance with ddof=1 (`Series.std()` squared); series of length 1
(variance NaN in pandas) are outside the scope of the rational model. -/
def sampleVariance (xs : List ℚ) : ℚ :=
  (xs.map (fun x => (x - listMean xs) ^ 2)).sum / ((xs.length : ℚ) - 1)

/-- `calculate_sharpe_ratio` (cvar.py lines 186-208).  The float square root
is abstracted as the parameter `sqrtf`; `sqrtf (sampleVariance returns)` is
`returns.std()`. -/
def calculate_sharpe_ratio (sqrtf : ℚ → ℚ) (returns : List ℚ)
    (riskFreeRate : ℚ) : ℚ :=
  if returns = [] ∨ sqrtf (sampleVariance returns) = 0 then 0
  else (listMean returns * 252 - riskFreeRate) /
    (sqrtf (sampleVariance returns) * sqrtf 252)

/-- C10: `calculate_sharpe_ratio` is total: empty series and zero standard
deviation return 0 (no division is attempted), every other series returns
(mean·252 − rf)/(std·√252). -/
theorem sharpe_total (sqrtf : ℚ → ℚ) (returns : List ℚ) (rf : ℚ) :
    (returns = [] → calculate_sharpe_ratio sqrtf returns rf = 0) ∧
    (sqrtf (sampleVariance returns) = 0 →
      calculate_sharpe_ratio sqrtf returns rf = 0) ∧
    (returns ≠ [] → sqrtf (sampleVariance returns) ≠ 0 →
      calculate_sharpe_ratio sqrtf returns rf =
        (listMean returns * 252 - rf) /
          (sqrtf (sampleVariance returns) * sqrtf 252)) := by
  refine ⟨fun he => ?_, fun hz => ?_, fun hne hnz => ?_⟩
  · simp [calculate_sharpe_ratio, he]
  · simp [calculate_sharpe_ratio, hz]
  · simp [calculate_sharpe_ratio, hne, hnz]

/-- C10 witness: with the identity in place of the float square root,
returns [1, 3] and rf = 0 give mean 2, ddof-1 variance 2, and Sharpe
(2·252)/(2·252) = 1; the empty series gives 0. -/
theorem sharpe_total_witness :
    calculate_sharpe_ratio (fun x => x) [1, 3] 0 = 1 ∧
    calculate_sharpe_ratio (fun x => x) [] 0 = 0 := by
  constructor
  · have hvar : sampleVariance [1, 3] = 2 := by
      norm_num [sampleVariance, listMean]
    have h := (sharpe_total (fun x => x) [1, 3] 0).2.2 (by simp)
      (by rw [hvar]; norm_num)
    rw [h]
    norm_num [listMean, hvar]
  · exact (sharpe_total (fun x => x) [] 0).1 rfl

/-! ### Mean-variance optimizer (src/src/optimization/mean_variance.py)

The PyPortfolioOpt solver invoked after the input validation is abstracted as
a parameter `solve`; the claims concern the validation prefix of
`MeanVarianceOptimizer.optimize` (lines 38-42) and the method dispatch
(lines 59-70), which raise ValueError (bad input). -/

structure ReturnsFrame where
  cols : List String
  nrows : ℕ

/-- `DataFrame.empty`: any axis of length 0. -/
def frameEmpty (df : ReturnsFrame) : Bool :=
  df.nrows = 0 || df.cols.length = 0

structure OptOutcome where
  weights : List (String × ℚ)
  expectedReturn : ℚ
  volatility : ℚ
  sharpe : ℚ

inductive OptError
  | emptyReturns
  | btcMissing
  | unknownMethod (m : String)
deriving DecidableEq, Repr

/-- `MeanVarianceOptimizer.optimize` (mean_variance.py lines 21-102): raises
ValueError on an empty frame, on a missing BTC column, and on an unknown
method name; otherwise runs the solver. -/
def optimize (solve : ReturnsFrame → String → OptOutcome) (df : ReturnsFrame)
    (method : String) : Except OptError OptOutcome :=
  if frameEmpty df then Except.error OptError.emptyReturns
  else if "BTC" ∉ df.cols then Except.error OptError.btcMissing
  else if method = "max_sharpe" ∨ method = "min_volatility" ∨
      method = "efficient_risk" ∨ method = "efficient_return" then
    Except.ok (solve df method)
  else Except.error (OptError.unknownMethod method)

/-- C8: for every historical-returns frame without a BTC column, `optimize`
fails with a bad-input (ValueError-kind) error — never an optimized weight
vector — for every method and every solver behaviour. -/
theorem optimize_requires_btc (solve : ReturnsFrame → String → OptOutcome)
    (df : ReturnsFrame) (method : String) (hbtc : "BTC" ∉ df.cols) :
    optimize solve df method =
      Except.error
        (if frameEmpty df then OptError.emptyReturns else OptError.btcMissing) := by
  by_cases he : frameEmpty df <;> simp [optimize, he, hbtc]

def zeroOutcome : OptOutcome :=
  { weights := [], expectedReturn := 0, volatility := 0, sharpe := 0 }

def noBtcFrame : ReturnsFrame := { cols := ["ETH", "SOL"], nrows := 100 }

/-- C8 witness: a non-empty frame with columns ETH, SOL errors with
`btcMissing` under the max_sharpe method. -/
theorem optimize_requires_btc_witness :
    optimize (fun _ _ => zeroOutcome) noBtcFrame "max_sharpe" =
      Except.error OptError.btcMissing := by
  have h := optimize_requires_btc (fun _ _ => zeroOutcome) noBtcFrame
    "max_sharpe" (by decide)
  simpa [noBtcFrame, frameEmpty] using h

/-! ### Data manager historical fetch (src/src/data/manager.py lines 133-184)

Embedded as a function of one call's resolved collaborators: whether storage
is enabled (`use_storage and self.storage`), the rows the store returns for
the inclusive window, the number of expected daily slots
(`len(pd.date_range(start, end, freq='D'))`, modelling its 80% threshold
exactly as 4/5), and the adapter result (None when the adapter raised).  The
adapter registry always resolves (a default adapter exists), so adapter
selection is not modelled.  The output records the returned rows, whether the
adapter was invoked, and the rows upserted into the store (None when
`store_prices` was not called). -/

structure FetchArgs (α : Type) where
  storageOn : Bool
  stored : List α
  expectedSlots : ℕ
  adapterResult : Option (List α)

structure FetchOut (α : Type) where
  result : List α
  adapterCalled : Bool
  wrote : Option (List α)
deriving DecidableEq, Repr

/-- `DataManager.fetch_historical_prices`: return stored rows when they are
non-empty and cover at least 80% of the expected daily slots; otherwise call
the adapter, upsert any non-empty result when storage is enabled, and return
it (empty on an adapter exception). -/
def fetch_historical_prices {α : Type} (a : FetchArgs α) : FetchOut α :=
  if a.storageOn && !a.stored.isEmpty &&
      decide (4 * a.expectedSlots ≤ 5 * a.stored.length) then
    { result := a.stored, adapterCalled := false, wrote := none }
  else
    match a.adapterResult with
    | none => { result := [], adapterCalled := true, wrote := none }
    | some rows =>
      if !rows.isEmpty && a.storageOn then
        { result := rows, adapterCalled := true, wrote := some rows }
      else
        { result := rows, adapterCalled := true, wrote := none }

/-- C5: with storage enabled and at least one expected daily slot (start ≤
end), coverage of at least 80% returns the stored rows without invoking the
adapter; otherwise the adapter is invoked and any non-empty adapter result is
upserted into the store before being returned. -/
theorem fetch_historical_storage_paths {α : Type} (a : FetchArgs α)
    (hon : a.storageOn = true) (hslots : 1 ≤ a.expectedSlots) :
    (4 * a.expectedSlots ≤ 5 * a.stored.length →
      (fetch_historical_prices a).result = a.stored ∧
      (fetch_historical_prices a).adapterCalled = false) ∧
    (5 * a.stored.length < 4 * a.expectedSlots →
      (fetch_historical_prices a).adapterCalled = true ∧
      ∀ rows, a.adapterResult = some rows → rows ≠ [] →
        (fetch_historical_prices a).wrote = some rows ∧
        (fetch_historical_prices a).result = rows) := by
  constructor
  · intro hcov
    have hlen : 0 < a.stored.length := by omega
    have hne : a.stored.isEmpty = false := by
      cases hstored : a.stored with
      | nil => rw [hstored] at hlen; simp at hlen
      | cons x xs => simp
    simp [fetch_historical_prices, hon, hne, hcov]
  · intro hcov
    have hcond : (a.storageOn && !a.stored.isEmpty &&
        decide (4 * a.expectedSlots ≤ 5 * a.stored.length)) = false := by
      simp only [Bool.and_eq_false_iff, decide_eq_false_iff_not]
      right
      omega
    constructor
    · simp only [fetch_historical_prices, hcond, if_false, Bool.false_eq_true]
      cases a.adapterResult with
      | none => simp
      | some rows =>
        by_cases hr : (!rows.isEmpty && a.storageOn) = true <;> simp [hr]
    · intro rows hrows hrne
      have hre : rows.isEmpty = false := by
        cases rows with
        | nil => exact absurd rfl hrne
        | cons x xs => simp
      simp only [fetch_historical_prices, hcond, if_false, Bool.false_eq_true, hrows]
      simp [hre, hon]

def storedHitArgs : FetchArgs ℕ :=
  { storageOn := true, stored := [1, 2, 3, 4], expectedSlots := 5,
    adapterResult := none }

def storedMissArgs : FetchArgs ℕ :=
  { storageOn := true, stored := [1], expectedSlots := 5,
    adapterResult := some [7, 8] }

/-- C5 witness: stored coverage 4 of 5 slots (exactly 80%) is served from the
store without calling the adapter; coverage 1 of 5 slots calls the adapter
and upserts its non-empty result. -/
theorem fetch_historical_storage_paths_witness :
    ((fetch_historical_prices storedHitArgs).result = [1, 2, 3, 4] ∧
      (fetch_historical_prices storedHitArgs).adapterCalled = false) ∧
    ((fetch_historical_prices storedMissArgs).adapterCalled = true ∧
      (fetch_historical_prices storedMissArgs).wrote = some [7, 8] ∧
      (fetch_historical_prices storedMissArgs).result = [7, 8]) := by
  constructor
  · exact (fetch_historical_storage_paths storedHitArgs rfl
      (by norm_num [storedHitArgs])).1 (by norm_num [storedHitArgs])
  · have h := (fetch_historical_storage_paths storedMissArgs rfl
      (by norm_num [storedMissArgs])).2 (by norm_num [storedMissArgs])
    exact ⟨h.1, (h.2 [7, 8] rfl (by simp)).1, (h.2 [7, 8] rfl (by simp)).2⟩

end FksPortfolio
